import Mathlib

/-!
Verification of the market-sizer pipeline in app.py.

The file gives a shallow embedding of the pure logic of app.py
(regex metric extraction, JSON parsing of AI responses, the
fallback policies of the metric extractor, the AI call gateway,
the content extractor, the advice synthesizer and the feed
retriever) and proves the stated properties about it.

Network interaction and raised exceptions are embedded explicitly:
an operation of the source that can raise is represented with an
Except value, where Except.error models a raised Python exception,
and the outcomes of the external HTTP and inference calls are taken
as parameters of the embedded functions.
-/

namespace MarketSizer

/-! Python-style character classes used by app.py.
isPySpaceChar models the ASCII part of the regex class backslash-s
and of str.strip; non-ASCII whitespace is not modelled. -/

def isPySpaceChar (c : Char) : Bool :=
  c == ' ' || c == '\t' || c == '\n' || c == '\r' || c == '\x0b' || c == '\x0c'

/-- Python str.strip() with no argument: remove leading and trailing
whitespace. -/
def pyStrip (s : String) : String :=
  String.mk (((s.data.dropWhile isPySpaceChar).reverse.dropWhile isPySpaceChar).reverse)

/-! JSON values, as produced by Python json.loads.  Numbers keep their
source lexeme; the claims under study never compare numeric values.
The lexemes NaN, Infinity and -Infinity (accepted by json.loads)
are represented as Json.num with that lexeme. -/

inductive Json where
  | null : Json
  | bool (b : Bool) : Json
  | num (lexeme : String) : Json
  | str (s : String) : Json
  | arr (elems : List Json) : Json
  | obj (members : List (String × Json)) : Json

/-- Python dict.get with a default.  The member list keeps insertion
order with duplicates; as in a Python dict literal built by repeated
assignment, the last binding of a key wins. -/
def dictGet (kvs : List (String × Json)) (k : String) (dflt : Json) : Json :=
  match kvs.foldl (fun acc p => if p.1 == k then some p.2 else acc) none with
  | some v => v
  | none => dflt

/-- Truthiness of the digits of a number lexeme: a JSON number is falsy
in Python exactly when it converts to 0.0.  We take: a lexeme whose
mantissa contains letters (NaN, Infinity) is truthy, otherwise it is
truthy when some mantissa digit is nonzero.  Float underflow of tiny
exponents to 0.0 is not modelled. -/
def numTruthy (lexeme : String) : Bool :=
  let mant := lexeme.data.takeWhile (fun c => !(c == 'e') && !(c == 'E'))
  if mant.any Char.isAlpha then true
  else !((mant.filter Char.isDigit).all (fun c => c == '0'))

/-- Python truthiness of a value decoded from JSON. -/
def truthy : Json → Bool
  | Json.null => false
  | Json.bool b => b
  | Json.num lexeme => numTruthy lexeme
  | Json.str s => s != ""
  | Json.arr elems => !elems.isEmpty
  | Json.obj members => !members.isEmpty

/-! A strict JSON parser following Python json.loads (json.decoder with
its default strict settings): whitespace is space, tab, newline,
carriage return; strings reject unescaped control characters and
support the standard escapes; numbers follow the strict JSON number
grammar; trailing data after the top-level value is an error.
Surrogate-pair combination in string escapes is not modelled: each
uXXXX escape decodes to one code point. -/

def isJsonWs (c : Char) : Bool :=
  c == ' ' || c == '\t' || c == '\n' || c == '\r'

def skipWs (l : List Char) : List Char :=
  l.dropWhile isJsonWs

def hexVal (c : Char) : Option Nat :=
  if '0' ≤ c ∧ c ≤ '9' then some (c.toNat - 48)
  else if 'a' ≤ c ∧ c ≤ 'f' then some (c.toNat - 87)
  else if 'A' ≤ c ∧ c ≤ 'F' then some (c.toNat - 55)
  else none

def escChar (c : Char) : Option Char :=
  match c with
  | 't' => some '\t'
  | 'n' => some '\n'
  | 'r' => some '\r'
  | 'b' => some (Char.ofNat 8)
  | 'f' => some (Char.ofNat 12)
  | '/' => some '/'
  | '\\' => some '\\'
  | '"' => some '"'
  | _ => none

/-- Body of a JSON string after the opening quote; acc holds the
decoded characters in reverse. -/
def parseJStringAux : Nat → List Char → List Char → Option (String × List Char)
  | 0, _, _ => none
  | fuel+1, acc, l =>
    match l with
    | [] => none
    | '"' :: r => some (String.mk acc.reverse, r)
    | '\\' :: r =>
      match r with
      | 'u' :: a :: b :: c :: d :: r2 =>
        match hexVal a, hexVal b, hexVal c, hexVal d with
        | some x, some y, some z, some w =>
          parseJStringAux fuel (Char.ofNat (((x * 16 + y) * 16 + z) * 16 + w) :: acc) r2
        | _, _, _, _ => none
      | 'u' :: _ => none
      | e :: r2 =>
        match escChar e with
        | some c => parseJStringAux fuel (c :: acc) r2
        | none => none
      | [] => none
    | c :: r => if c.toNat < 32 then none else parseJStringAux fuel (c :: acc) r

def parseJString (l : List Char) : Option (String × List Char) :=
  parseJStringAux (l.length + 1) [] l

/-- One or more digits, maximal munch. -/
def digits1 (l : List Char) : Option (List Char × List Char) :=
  let d := l.takeWhile Char.isDigit
  if d.isEmpty then none else some (d, l.dropWhile Char.isDigit)

/-- Exponent part of a JSON number; when the exponent is malformed the
number ends before the e, as with the strict JSON number regex. -/
def expTail (e : Char) (rr : List Char) (fallback : List Char) : List Char × List Char :=
  match rr with
  | '+' :: rr2 =>
    match digits1 rr2 with
    | some (ds, rr3) => (e :: '+' :: ds, rr3)
    | none => ([], fallback)
  | '-' :: rr2 =>
    match digits1 rr2 with
    | some (ds, rr3) => (e :: '-' :: ds, rr3)
    | none => ([], fallback)
  | _ =>
    match digits1 rr with
    | some (ds, rr3) => (e :: ds, rr3)
    | none => ([], fallback)

/-- Unsigned part of a JSON number: integer part (a lone 0, or a
nonzero digit followed by digits), optional fraction, optional
exponent. -/
def parseNumCore (l : List Char) : Option (List Char × List Char) :=
  let intPart : Option (List Char × List Char) :=
    match l with
    | '0' :: r => some ([('0')], r)
    | c :: _ =>
      if '1' ≤ c ∧ c ≤ '9' then
        some (l.takeWhile Char.isDigit, l.dropWhile Char.isDigit)
      else none
    | [] => none
  match intPart with
  | none => none
  | some (ip, r1) =>
    let fracRes : List Char × List Char :=
      match r1 with
      | '.' :: rr =>
        match digits1 rr with
        | some (ds, rr2) => ('.' :: ds, rr2)
        | none => ([], r1)
      | _ => ([], r1)
    let r2 := fracRes.2
    let expRes : List Char × List Char :=
      match r2 with
      | 'e' :: rr => expTail 'e' rr r2
      | 'E' :: rr => expTail 'E' rr r2
      | _ => ([], r2)
    some (ip ++ fracRes.1 ++ expRes.1, expRes.2)

def parseNumber (l : List Char) : Option (Json × List Char) :=
  match l with
  | '-' :: r =>
    match parseNumCore r with
    | some (cs, rest) => some (Json.num (String.mk ('-' :: cs)), rest)
    | none => none
  | _ =>
    match parseNumCore l with
    | some (cs, rest) => some (Json.num (String.mk cs), rest)
    | none => none

/-- Parser modes: a value, the members of an object after the opening
brace (nonempty case), the elements of an array after the opening
bracket (nonempty case). -/
inductive PMode where
  | value : PMode
  | members (acc : List (String × Json)) : PMode
  | elems (acc : List Json) : PMode

/-- Recursive-descent JSON parser with fuel; every recursive call
consumes at least one character, so fuel larger than the input length
suffices. -/
def parseCore : Nat → PMode → List Char → Option (Json × List Char)
  | 0, _, _ => none
  | fuel+1, PMode.value, l =>
    match l with
    | '{' :: r =>
      match skipWs r with
      | '}' :: r2 => some (Json.obj [], r2)
      | r1 => parseCore fuel (PMode.members []) r1
    | '[' :: r =>
      match skipWs r with
      | ']' :: r2 => some (Json.arr [], r2)
      | r1 => parseCore fuel (PMode.elems []) r1
    | '"' :: r =>
      match parseJString r with
      | some (s, rest) => some (Json.str s, rest)
      | none => none
    | _ =>
      if l.take 4 == ("true").toList then some (Json.bool true, l.drop 4)
      else if l.take 5 == ("false").toList then some (Json.bool false, l.drop 5)
      else if l.take 4 == ("null").toList then some (Json.null, l.drop 4)
      else if l.take 3 == ("NaN").toList then some (Json.num ("NaN"), l.drop 3)
      else if l.take 8 == ("Infinity").toList then some (Json.num ("Infinity"), l.drop 8)
      else if l.take 9 == ("-Infinity").toList then some (Json.num ("-Infinity"), l.drop 9)
      else parseNumber l
  | fuel+1, PMode.members acc, l =>
    match l with
    | '"' :: r =>
      match parseJString r with
      | none => none
      | some (k, r1) =>
        match skipWs r1 with
        | ':' :: r2 =>
          match parseCore fuel PMode.value (skipWs r2) with
          | none => none
          | some (v, r3) =>
            match skipWs r3 with
            | ',' :: r4 => parseCore fuel (PMode.members (acc ++ [(k, v)])) (skipWs r4)
            | '}' :: r4 => some (Json.obj (acc ++ [(k, v)]), r4)
            | _ => none
        | _ => none
    | _ => none
  | fuel+1, PMode.elems acc, l =>
    match parseCore fuel PMode.value l with
    | none => none
    | some (v, r1) =>
      match skipWs r1 with
      | ',' :: r2 => parseCore fuel (PMode.elems (acc ++ [v])) (skipWs r2)
      | ']' :: r2 => some (Json.arr (acc ++ [v]), r2)
      | _ => none

/-- Python json.loads: skip leading whitespace, parse one value,
require only whitespace to remain; none models a raised ValueError. -/
def json_loads (s : String) : Option Json :=
  match parseCore (s.data.length + 2) PMode.value (skipWs s.data) with
  | some (v, rest) => if (skipWs rest).isEmpty then some v else none
  | none => none

/-- parse_metrics from app.py: try json.loads on the raw AI response
and read the TAM and CAGR keys with empty-string defaults.  A parse
failure, and equally a parsed value that is not a dict (whose get
attribute access raises and is caught by the bare except), give a pair
of empty strings. -/
def parse_metrics (js : String) : Json × Json :=
  match json_loads js with
  | some (Json.obj kvs) =>
    (dictGet kvs ("TAM") (Json.str ("")), dictGet kvs ("CAGR") (Json.str ("")))
  | _ => (Json.str (""), Json.str (""))

/-! The two regular expressions of regex_metrics_from_title, embedded
as deterministic matchers.  For both patterns, greedy maximal munch at
a given start position is equivalent to the backtracking search of
Python re, because no continuation of either pattern can start with a
character that the preceding repeated class accepts; search scans the
start positions from the left, as re.search does. -/

/-- The character class of the TAM pattern: digits, comma, period. -/
def isTamClassChar (c : Char) : Bool :=
  c.isDigit || c == ',' || c == '.'

/-- The unit literal of the TAM pattern: the next seven characters,
  case-insensitively billion or million, returned verbatim. -/
def tamUnit (l : List Char) : Option (List Char) :=
  let u := l.take 7
  if u.length == 7 &&
      (u.map Char.toLower == ("billion").toList || u.map Char.toLower == ("million").toList)
  then some u else none

/-- The TAM pattern after the optional dollar sign: one or more class
characters, optional whitespace, then the unit. -/
def tamCore (l : List Char) : Option (List Char) :=
  let ds := l.takeWhile isTamClassChar
  if ds.isEmpty then none
  else
    let r1 := l.dropWhile isTamClassChar
    let sp := r1.takeWhile isPySpaceChar
    let r2 := r1.dropWhile isPySpaceChar
    match tamUnit r2 with
    | some u => some (ds ++ (sp ++ u))
    | none => none

/-- Match of the full TAM pattern at one start position.  The dollar
branch mirrors the greedy optional quantifier: with the dollar
consumed first and, on failure, retried as empty (which then fails
since the dollar sign is not a class character). -/
def tamMatchAt (l : List Char) : Option (List Char) :=
  match l with
  | '$' :: r =>
    match tamCore r with
    | some m => some ('$' :: m)
    | none => tamCore ('$' :: r)
  | _ => tamCore l

/-- re.search for the TAM pattern: first start position, scanning from
the left, at which the pattern matches. -/
def searchTam : List Char → Option (List Char)
  | [] => none
  | c :: r =>
    match tamMatchAt (c :: r) with
    | some m => some m
    | none => searchTam r

/-- Match of the CAGR pattern at one start position: digits, an
optional fraction (period then digits), then the percent sign. -/
def cagrMatchAt (l : List Char) : Option (List Char) :=
  let ds := l.takeWhile Char.isDigit
  if ds.isEmpty then none
  else
    match l.dropWhile Char.isDigit with
    | '%' :: _ => some (ds ++ [('%')])
    | '.' :: r2 =>
      let fs := r2.takeWhile Char.isDigit
      if fs.isEmpty then none
      else
        match r2.dropWhile Char.isDigit with
        | '%' :: _ => some (ds ++ ('.' :: (fs ++ [('%')])))
        | _ => none
    | _ => none

/-- re.search for the CAGR pattern. -/
def searchCagr : List Char → Option (List Char)
  | [] => none
  | c :: r =>
    match cagrMatchAt (c :: r) with
    | some m => some m
    | none => searchCagr r

/-- regex_metrics_from_title from app.py: the first match of each of
the two patterns against the title, verbatim, with empty string when
there is no match. -/
def regex_metrics_from_title (title : String) : String × String :=
  (match searchTam title.data with
   | some m => String.mk m
   | none => "",
   match searchCagr title.data with
   | some m => String.mk m
   | none => "")

/-- The per-row metric extraction of app.py steps 5 and 6: parse the
raw AI response, and if both resulting fields are falsy replace the
pair by the regex extraction from the title. -/
def extract_metrics (title raw : String) : Json × Json :=
  let p := parse_metrics raw
  if !truthy p.1 && !truthy p.2 then
    (Json.str ((regex_metrics_from_title title).1),
     Json.str ((regex_metrics_from_title title).2))
  else p

/-! The AI call gateway call_ai.  The outcomes of the two network
calls are parameters: hfResult is the payload of res.json() for the
Hugging Face call (error models an exception raised by the call or by
res.json()), oaResult is the message content of the OpenAI call
(error models an exception raised by the call or by the attribute
accesses).  Both tiers of the source wrap their body in try/except,
so an error outcome makes the tier yield nothing. -/

/-- Text produced by the Hugging Face tier: requires the tier to be
configured, the call to succeed, the payload to be a dict (get on a
non-dict raises and is caught), the generated_text value to be a
string (strip on a non-string raises and is caught), and the stripped
text to be non-empty. -/
def tier1_text (hfAvailable : Bool) (hfResult : Except Unit Json) : Option String :=
  if hfAvailable then
    match hfResult with
    | Except.error _ => none
    | Except.ok (Json.obj kvs) =>
      match dictGet kvs ("generated_text") (Json.str ("")) with
      | Json.str s =>
        let t := pyStrip s
        if t == "" then none else some t
      | _ => none
    | Except.ok _ => none
  else none

/-- Text produced by the OpenAI tier: requires the key to be set, the
call to succeed and the stripped content to be non-empty. -/
def tier2_text (openaiKeySet : Bool) (oaResult : Except Unit String) : Option String :=
  if openaiKeySet then
    match oaResult with
    | Except.error _ => none
    | Except.ok content =>
      let r := pyStrip content
      if r == "" then none else some r
  else none

/-- call_ai from app.py: the Hugging Face tier first, then the OpenAI
tier, then the empty string. -/
def call_ai (hfAvailable : Bool) (hfResult : Except Unit Json)
    (openaiKeySet : Bool) (oaResult : Except Unit String) : String :=
  match tier1_text hfAvailable hfResult with
  | some t => t
  | none =>
    match tier2_text openaiKeySet oaResult with
    | some r => r
    | none => ""

/-! The content extractor extract_text.  articleOk is whether the
newspaper import succeeded; primary is the text of the article after
download and parse (error models an exception in the newspaper
calls); secondary is the list of paragraph texts of the scraped page
(error models an exception raised by requests.get, which the source
does not wrap in a try).  The primary attempt is inside a try with a
bare except; its text is used only when it is non-blank. -/

/-- The secondary path: paragraph texts joined by single spaces, or
the propagated fetch exception. -/
def secondaryJoin (secondary : Except Unit (List String)) : Except Unit String :=
  match secondary with
  | Except.ok ps => Except.ok (String.intercalate (" ") ps)
  | Except.error e => Except.error e

/-- extract_text from app.py. -/
def extract_text (articleOk : Bool) (primary : Except Unit String)
    (secondary : Except Unit (List String)) : Except Unit String :=
  match articleOk, primary with
  | true, Except.ok t => if pyStrip t != "" then Except.ok t else secondaryJoin secondary
  | true, Except.error _ => secondaryJoin secondary
  | false, _ => secondaryJoin secondary

/-- The snippet step of the pipeline: extract_text truncated to the
first 1000 characters; an exception from extract_text propagates. -/
def snippet_step (articleOk : Bool) (primary : Except Unit String)
    (secondary : Except Unit (List String)) : Except Unit String :=
  match extract_text articleOk primary secondary with
  | Except.ok t => Except.ok (String.mk (t.data.take 1000))
  | Except.error e => Except.error e

/-! The advice fallback of app.py.  The AI response to the advice
prompt and the TAM and CAGR columns of the result table are the
inputs; per the data model, the metric fields are strings. -/

/-- Python expression: comma-space join of a list, replaced by N/A
when the join is empty. -/
def joinOrNA (l : List String) : String :=
  let j := String.intercalate (", ") l
  if j == "" then ("N/A") else j

/-- The templated advice used when some metric value exists. -/
def adviceWithMetrics (tams cagrs : List String) : String :=
  "Based on the metrics, the market size is " ++ joinOrNA tams ++
    " with growth rates of " ++ joinOrNA cagrs ++
    ". This indicates a significant market opportunity. " ++
    "Consider validating demand with customer interviews, assessing key competitors, " ++
    "and planning a go-to-market strategy that addresses pain points and leverages growth trends."

/-- The templated advice used when no metric value exists. -/
def adviceNoMetrics : String :=
  "We couldn\x27t extract clear market metrics. " ++
    "Consider researching industry reports or public data to determine TAM and CAGR, " ++
    "then revisit this tool for insights."

/-- The advice step of app.py: the AI response if non-empty, else one
of the two deterministic templates, chosen by whether any non-empty
TAM or CAGR value exists in the columns. -/
def synthesize_advice (aiResponse : String) (tamCol cagrCol : List String) : String :=
  if aiResponse != "" then aiResponse
  else
    let tams := tamCol.filter (fun t => t != "")
    let cagrs := cagrCol.filter (fun c => c != "")
    if !tams.isEmpty || !cagrs.isEmpty then adviceWithMetrics tams cagrs
    else adviceNoMetrics

/-! The source retriever fetch_news.  A feed item has optional title
and link elements; the HTTP status of the feed fetch decides whether
raise_for_status raises. -/

structure FeedItem where
  title : Option String
  link : Option String
deriving DecidableEq

structure Headline where
  title : String
  link : String
deriving DecidableEq

/-- The item-list part of fetch_news: at most max_results items in
feed order, missing title or link mapped to the empty string. -/
def fetch_news (items : List FeedItem) (max_results : Nat) : List Headline :=
  (items.take max_results).map (fun it => Headline.mk (it.title.getD ("")) (it.link.getD ("")))

/-- fetch_news including r.raise_for_status(): requests raises
HTTPError exactly for status codes 400 through 599. -/
def fetch_news_full (status : Nat) (items : List FeedItem) (max_results : Nat) :
    Except Unit (List Headline) :=
  if 400 ≤ status ∧ status < 600 then Except.error ()
  else Except.ok (fetch_news items max_results)

/-- Modelled from the spec: the TAM pattern as the specification
words it, with digits required.  The spec describes the matched text
as an optional dollar sign, digits with optional thousands separators
or decimals, then billion or million case-insensitively; this matcher
is tamMatchAt strengthened so that the separator-and-digit run must
contain at least one digit. -/
def specTamCore (l : List Char) : Option (List Char) :=
  let ds := l.takeWhile isTamClassChar
  if ds.any Char.isDigit then
    let r1 := l.dropWhile isTamClassChar
    let sp := r1.takeWhile isPySpaceChar
    let r2 := r1.dropWhile isPySpaceChar
    match tamUnit r2 with
    | some u => some (ds ++ (sp ++ u))
    | none => none
  else none

/-- Modelled from the spec: match of the spec TAM pattern at one
start position. -/
def specTamMatchAt (l : List Char) : Option (List Char) :=
  match l with
  | '$' :: r =>
    match specTamCore r with
    | some m => some ('$' :: m)
    | none => specTamCore ('$' :: r)
  | _ => specTamCore l

/-! Concrete inputs used by the claims. -/

def titleC1 : String := "Market hits $9 million"

def rawC1 : String := "\x7b\"TAM\":\"$3 billion\",\"CAGR\":\"10%\"\x7d"

def kvsC1 : List (String × Json) :=
  [(("TAM"), Json.str ("$3 billion")), (("CAGR"), Json.str ("10%"))]

def widgetTitle : String := "Widget market to hit $5 billion by 2030, growing 8% annually"

def unparsableResp : String := "I don\x27t know"

def titleC6 : String := "The , billion market hits $3 billion"

def titleC6W : String := "$1.2 billion market"

def titleC7W : String := "Growing 12.5% annually"

def items8 : List FeedItem :=
  [FeedItem.mk (some ("a0")) none,
   FeedItem.mk none (some ("l1")),
   FeedItem.mk (some ("a2")) (some ("l2")),
   FeedItem.mk none none,
   FeedItem.mk (some ("a4")) (some ("l4")),
   FeedItem.mk (some ("a5")) (some ("l5")),
   FeedItem.mk (some ("a6")) (some ("l6")),
   FeedItem.mk (some ("a7")) (some ("l7"))]

/-! Helper lemmas. -/

/-- Unfolding of extract_metrics. -/
theorem extract_metrics_eq (title raw : String) :
    extract_metrics title raw =
      if !truthy (parse_metrics raw).1 && !truthy (parse_metrics raw).2 then
        (Json.str ((regex_metrics_from_title title).1),
         Json.str ((regex_metrics_from_title title).2))
      else parse_metrics raw := rfl

/-- A successful tamUnit match is the first seven characters of its
input. -/
theorem tamUnit_front (l u : List Char) (h : tamUnit l = some u) :
    ∃ r, l = u ++ r := by
  simp only [tamUnit] at h
  split at h
  · injection h with h2
    exact ⟨l.drop 7, by rw [← h2]; exact (List.take_append_drop 7 l).symm⟩
  · exact Option.noConfusion h

/-- A successful tamCore match is an initial segment of its input. -/
theorem tamCore_front (l m : List Char) (h : tamCore l = some m) :
    ∃ r, l = m ++ r := by
  simp only [tamCore] at h
  split at h
  · exact Option.noConfusion h
  · split at h
    · rename_i u heq
      injection h with h2
      obtain ⟨r, hr⟩ := tamUnit_front _ _ heq
      subst h2
      refine ⟨r, ?_⟩
      have hassoc :
          l.takeWhile isTamClassChar ++
              ((l.dropWhile isTamClassChar).takeWhile isPySpaceChar ++ (u ++ r)) =
            (l.takeWhile isTamClassChar ++
              ((l.dropWhile isTamClassChar).takeWhile isPySpaceChar ++ u)) ++ r := by
        simp [List.append_assoc]
      rw [← hassoc, ← hr,
        List.takeWhile_append_dropWhile isPySpaceChar (l.dropWhile isTamClassChar),
        List.takeWhile_append_dropWhile isTamClassChar l]
    · exact Option.noConfusion h

/-- Decomposition of a list at the point where dropWhile stops. -/
theorem takeWhile_cons_decomp (p : Char → Bool) (l : List Char) (x : Char) (r : List Char)
    (h : l.dropWhile p = x :: r) : l = l.takeWhile p ++ (x :: r) := by
  conv_lhs => rw [← List.takeWhile_append_dropWhile p l]
  rw [h]

/-- A successful tamMatchAt match is an initial segment of its input. -/
theorem tamMatchAt_front (l m : List Char) (h : tamMatchAt l = some m) :
    ∃ r, l = m ++ r := by
  simp only [tamMatchAt] at h
  split at h
  · rename_i r
    split at h
    · rename_i m0 heq
      injection h with h2
      obtain ⟨r2, hr2⟩ := tamCore_front _ _ heq
      subst h2
      exact ⟨r2, by rw [hr2]; rfl⟩
    · exact tamCore_front _ _ h
  · exact tamCore_front _ _ h

/-- searchTam finds the leftmost start position at which the TAM
pattern matches, and returns that match. -/
theorem searchTam_first (l : List Char) (i : Nat)
    (h : (tamMatchAt (l.drop i)).isSome = true) :
    ∃ j m, tamMatchAt (l.drop j) = some m
      ∧ (∀ k, k < j → tamMatchAt (l.drop k) = none)
      ∧ searchTam l = some m := by
  induction l generalizing i with
  | nil =>
    rw [List.drop_nil] at h
    exact absurd h (by decide)
  | cons c t ih =>
    cases h0 : tamMatchAt (c :: t) with
    | some m =>
      exact ⟨0, m, by simpa using h0, fun k hk => absurd hk (Nat.not_lt_zero k),
        by simp [searchTam, h0]⟩
    | none =>
      cases i with
      | zero =>
        rw [List.drop_zero] at h
        rw [h0] at h
        exact absurd h (by decide)
      | succ i2 =>
        rw [List.drop_succ_cons] at h
        obtain ⟨j, m, hm, hfirst, hsearch⟩ := ih i2 h
        refine ⟨j + 1, m, ?_, ?_, ?_⟩
        · rw [List.drop_succ_cons]
          exact hm
        · intro k hk
          cases k with
          | zero =>
            rw [List.drop_zero]
            exact h0
          | succ k2 =>
            rw [List.drop_succ_cons]
            exact hfirst k2 (by omega)
        · simp [searchTam, h0, hsearch]

/-- A successful cagrMatchAt match is an initial segment of its
input. -/
theorem cagrMatchAt_front (l m : List Char) (h : cagrMatchAt l = some m) :
    ∃ r, l = m ++ r := by
  simp only [cagrMatchAt] at h
  split at h
  · exact Option.noConfusion h
  · split at h
    · rename_i rest heq
      injection h with h2
      subst h2
      refine ⟨rest, ?_⟩
      conv_lhs => rw [takeWhile_cons_decomp Char.isDigit l '%' rest heq]
      simp
    · rename_i r2 heq
      split at h
      · exact Option.noConfusion h
      · split at h
        · rename_i rest2 heq2
          injection h with h2
          subst h2
          refine ⟨rest2, ?_⟩
          conv_lhs => rw [takeWhile_cons_decomp Char.isDigit l '.' r2 heq]
          conv_lhs => rw [takeWhile_cons_decomp Char.isDigit r2 '%' rest2 heq2]
          simp
        · exact Option.noConfusion h
    · exact Option.noConfusion h

/-- searchCagr finds the leftmost start position at which the CAGR
pattern matches, and returns that match. -/
theorem searchCagr_first (l : List Char) (i : Nat)
    (h : (cagrMatchAt (l.drop i)).isSome = true) :
    ∃ j m, cagrMatchAt (l.drop j) = some m
      ∧ (∀ k, k < j → cagrMatchAt (l.drop k) = none)
      ∧ searchCagr l = some m := by
  induction l generalizing i with
  | nil =>
    rw [List.drop_nil] at h
    exact absurd h (by decide)
  | cons c t ih =>
    cases h0 : cagrMatchAt (c :: t) with
    | some m =>
      exact ⟨0, m, by simpa using h0, fun k hk => absurd hk (Nat.not_lt_zero k),
        by simp [searchCagr, h0]⟩
    | none =>
      cases i with
      | zero =>
        rw [List.drop_zero] at h
        rw [h0] at h
        exact absurd h (by decide)
      | succ i2 =>
        rw [List.drop_succ_cons] at h
        obtain ⟨j, m, hm, hfirst, hsearch⟩ := ih i2 h
        refine ⟨j + 1, m, ?_, ?_, ?_⟩
        · rw [List.drop_succ_cons]
          exact hm
        · intro k hk
          cases k with
          | zero =>
            rw [List.drop_zero]
            exact h0
          | succ k2 =>
            rw [List.drop_succ_cons]
            exact hfirst k2 (by omega)
        · simp [searchCagr, h0, hsearch]

/-! Claim theorems. -/

/-- C6 counterexample: the title "The , billion market hits $3
billion" contains, at position 26 and nowhere earlier, a pattern like
"$1.2 billion" in the sense of the spec (digits with optional
separators), yet the regex TAM extractor does not return that
substring: the source character class needs no digit, so the earlier
text ", billion" is the first match and is returned instead. -/
theorem regex_tam_spec_pattern_counterexample :
    specTamMatchAt (titleC6.data.drop 26) = some (("$3 billion").toList)
    ∧ (∀ k, k < 26 → specTamMatchAt (titleC6.data.drop k) = none)
    ∧ (regex_metrics_from_title titleC6).1 = ", billion"
    ∧ (regex_metrics_from_title titleC6).1 ≠ "$3 billion" :=
  ⟨by rfl, by decide, by rfl, by decide⟩

/-- C6 (amended): for every title in which the source TAM pattern
(optional dollar sign, then one or more characters that are digits,
commas or periods, with no digit required, then optional whitespace,
then billion or million case-insensitively) matches at some position,
the regex TAM extractor returns exactly the match at the leftmost
matching position, verbatim as a substring of the title. -/
theorem regex_tam_first_match (title : String) (i : Nat)
    (h : (tamMatchAt (title.data.drop i)).isSome = true) :
    ∃ j m, tamMatchAt (title.data.drop j) = some m
      ∧ (∀ k, k < j → tamMatchAt (title.data.drop k) = none)
      ∧ (regex_metrics_from_title title).1 = String.mk m
      ∧ (∃ r, title.data.drop j = m ++ r) := by
  obtain ⟨j, m, hm, hfirst, hsearch⟩ := searchTam_first title.data i h
  exact ⟨j, m, hm, hfirst, by simp [regex_metrics_from_title, hsearch],
    tamMatchAt_front _ _ hm⟩

/-- C6 witness: the title "$1.2 billion market" matches the TAM
pattern at position 0 and the extractor returns the leftmost match. -/
theorem regex_tam_first_match_witness :
    ∃ j m, tamMatchAt (titleC6W.data.drop j) = some m
      ∧ (∀ k, k < j → tamMatchAt (titleC6W.data.drop k) = none)
      ∧ (regex_metrics_from_title titleC6W).1 = String.mk m
      ∧ (∃ r, titleC6W.data.drop j = m ++ r) :=
  regex_tam_first_match titleC6W 0 (by rfl)

/-- C7: for every title in which the CAGR pattern (a decimal number,
digits with an optional fraction, followed immediately by a percent
sign) matches at some position, the regex CAGR extractor returns
exactly the match at the leftmost matching position, verbatim as a
substring of the title. -/
theorem regex_cagr_first_match (title : String) (i : Nat)
    (h : (cagrMatchAt (title.data.drop i)).isSome = true) :
    ∃ j m, cagrMatchAt (title.data.drop j) = some m
      ∧ (∀ k, k < j → cagrMatchAt (title.data.drop k) = none)
      ∧ (regex_metrics_from_title title).2 = String.mk m
      ∧ (∃ r, title.data.drop j = m ++ r) := by
  obtain ⟨j, m, hm, hfirst, hsearch⟩ := searchCagr_first title.data i h
  exact ⟨j, m, hm, hfirst, by simp [regex_metrics_from_title, hsearch],
    cagrMatchAt_front _ _ hm⟩

/-- C7 witness: the title "Growing 12.5% annually" matches the CAGR
pattern at position 8 and the extractor returns the leftmost match. -/
theorem regex_cagr_first_match_witness :
    ∃ j m, cagrMatchAt (titleC7W.data.drop j) = some m
      ∧ (∀ k, k < j → cagrMatchAt (titleC7W.data.drop k) = none)
      ∧ (regex_metrics_from_title titleC7W).2 = String.mk m
      ∧ (∃ r, titleC7W.data.drop j = m ++ r) :=
  regex_cagr_first_match titleC7W 8 (by rfl)

/-- C10: the title ". million" contains no digit at all, yet the
regex TAM extractor returns the non-empty match ". million", because
the character class of the TAM pattern accepts commas and periods
without requiring any digit; hence a non-empty TAM result does not
imply that the title contains a number. -/
theorem regex_tam_no_digit_title :
    (∀ c ∈ (". million").data, c.isDigit = false)
    ∧ (regex_metrics_from_title (". million")).1 = ". million"
    ∧ (regex_metrics_from_title (". million")).1 ≠ "" :=
  ⟨by decide, by rfl, by decide⟩

/-- C1: when the raw AI response parses as a JSON object in which the
TAM or the CAGR value is a non-empty string, extract_metrics returns
exactly the AI-parsed pair (with empty-string defaults for missing
keys) and does not apply the regex-from-title fallback, whatever the
title contains; and the regex fallback is applied exactly when both
AI-derived fields are empty: every result is produced by one of the
two sources, with the fallback taken whenever both parsed fields are
falsy (also after a successful object parse, as with an empty object)
and the parse result kept whenever either field is truthy. -/
theorem extract_metrics_ai_precedence (title raw : String)
    (kvs : List (String × Json)) (s : String)
    (hp : json_loads raw = some (Json.obj kvs))
    (hs : s ≠ "")
    (hf : dictGet kvs ("TAM") (Json.str ("")) = Json.str s
      ∨ dictGet kvs ("CAGR") (Json.str ("")) = Json.str s) :
    extract_metrics title raw
      = (dictGet kvs ("TAM") (Json.str ("")), dictGet kvs ("CAGR") (Json.str ("")))
    ∧ (∀ t2 r2, extract_metrics t2 r2 = parse_metrics r2
        ∨ extract_metrics t2 r2 =
            (Json.str ((regex_metrics_from_title t2).1),
             Json.str ((regex_metrics_from_title t2).2)))
    ∧ (∀ t2 r2, truthy (parse_metrics r2).1 = false → truthy (parse_metrics r2).2 = false →
        extract_metrics t2 r2 =
          (Json.str ((regex_metrics_from_title t2).1),
           Json.str ((regex_metrics_from_title t2).2)))
    ∧ (∀ t2 r2, truthy (parse_metrics r2).1 = true ∨ truthy (parse_metrics r2).2 = true →
        extract_metrics t2 r2 = parse_metrics r2) := by
  have hpm : parse_metrics raw
      = (dictGet kvs ("TAM") (Json.str ("")), dictGet kvs ("CAGR") (Json.str (""))) := by
    unfold parse_metrics
    rw [hp]
  refine ⟨?_, ?_, ?_, ?_⟩
  · rw [extract_metrics_eq, hpm]
    have hb : (s != "") = true := bne_iff_ne.mpr hs
    have hcond : (!truthy (dictGet kvs ("TAM") (Json.str (""))) &&
        !truthy (dictGet kvs ("CAGR") (Json.str ("")))) = false := by
      cases hf with
      | inl h1 =>
        rw [h1]
        simp [truthy, hb]
      | inr h1 =>
        rw [h1]
        simp [truthy, hb]
    rw [hcond]
    simp
  · intro t2 r2
    rw [extract_metrics_eq]
    cases hcond : (!truthy (parse_metrics r2).1 && !truthy (parse_metrics r2).2) with
    | true =>
      right
      simp
    | false =>
      left
      simp
  · intro t2 r2 h1 h2
    rw [extract_metrics_eq, h1, h2]
    simp
  · intro t2 r2 h12
    rw [extract_metrics_eq]
    have hcond : (!truthy (parse_metrics r2).1 && !truthy (parse_metrics r2).2) = false := by
      cases h12 with
      | inl h1 => simp [h1]
      | inr h1 => simp [h1]
    rw [hcond]
    simp

/-- C1 witness: with the raw response holding TAM "$3 billion" and
CAGR "10%", the AI-parsed values are returned even though the title
"Market hits $9 million" would yield a different regex match; and the
empty object, whose parse succeeds but yields two empty fields, takes
the regex fallback. -/
theorem extract_metrics_ai_precedence_witness :
    extract_metrics titleC1 rawC1 = (Json.str ("$3 billion"), Json.str ("10%"))
    ∧ (regex_metrics_from_title titleC1).1 = "$9 million"
    ∧ extract_metrics titleC1 ("\x7b\x7d") = (Json.str ("$9 million"), Json.str ("")) := by
  have h := extract_metrics_ai_precedence titleC1 rawC1 kvsC1 ("$3 billion")
    (by rfl) (by decide) (Or.inl (by rfl))
  exact ⟨h.1.trans (by rfl), by rfl,
    (h.2.2.1 titleC1 ("\x7b\x7d") (by rfl) (by rfl)).trans (by rfl)⟩

/-- C2: when the raw AI response fails to parse as JSON, metric
extraction degrades to the regex fallback applied to the title only;
in particular the empty response on the widget title yields TAM
"$5 billion" and CAGR "8%", and the unparsable response behaves
identically to the empty response on every title. -/
theorem extract_metrics_fallback_spec :
    (∀ title raw, json_loads raw = none →
      extract_metrics title raw =
        (Json.str ((regex_metrics_from_title title).1),
         Json.str ((regex_metrics_from_title title).2)))
    ∧ extract_metrics widgetTitle ("") = (Json.str ("$5 billion"), Json.str ("8%"))
    ∧ (∀ title, extract_metrics title unparsableResp = extract_metrics title ("")) := by
  have hgen : ∀ title raw, json_loads raw = none →
      extract_metrics title raw =
        (Json.str ((regex_metrics_from_title title).1),
         Json.str ((regex_metrics_from_title title).2)) := by
    intro title raw hnone
    have hpm : parse_metrics raw = (Json.str (""), Json.str ("")) := by
      unfold parse_metrics
      rw [hnone]
    rw [extract_metrics_eq, hpm]
    simp [truthy]
  refine ⟨hgen, ?_, ?_⟩
  · exact (hgen widgetTitle ("") (by rfl)).trans (by rfl)
  · intro title
    rw [hgen title unparsableResp (by rfl), hgen title ("") (by rfl)]

/-- C2 witness: a concrete unparsable response on the widget title
takes the regex fallback path. -/
theorem extract_metrics_fallback_witness :
    extract_metrics widgetTitle ("not json") =
      (Json.str ((regex_metrics_from_title widgetTitle).1),
       Json.str ((regex_metrics_from_title widgetTitle).2)) :=
  extract_metrics_fallback_spec.1 widgetTitle ("not json") (by rfl)

/-- Appending a non-empty string on the right keeps a string
non-empty. -/
theorem append_ne_empty_right (s t : String) (h : t ≠ "") : s ++ t ≠ "" := by
  intro he
  apply h
  have hd := congrArg String.data he
  rw [String.data_append] at hd
  exact String.ext (List.append_eq_nil.mp hd).2

/-- The metric template is never the empty string. -/
theorem adviceWithMetrics_ne_empty (ta ca : List String) : adviceWithMetrics ta ca ≠ "" := by
  unfold adviceWithMetrics
  apply append_ne_empty_right
  decide

/-- C3 counterexample: with the primary path yielding only blank text
and the secondary HTTP fetch raising, extract_text raises: the
secondary requests.get of the source is not wrapped in a try, so an
extraction failure on that path is a raised error, not an empty
snippet. -/
theorem extract_text_raises_counterexample :
    extract_text true (Except.ok ("   ")) (Except.error ()) = Except.error () := by rfl

/-- C3 (amended): extract_text never raises when the secondary HTTP
fetch succeeds; a failure or blank result of the primary structured
extraction degrades silently to the paragraph scrape; when the
primary yields nothing and the page has no paragraphs the result is
the empty string; but when the secondary fetch raises, the exception
propagates unless the primary already returned non-blank text. -/
theorem extract_text_degrade_spec :
    (∀ a p paras, ∃ s, extract_text a p (Except.ok paras) = Except.ok s)
    ∧ (∀ a paras, extract_text a (Except.error ()) (Except.ok paras) =
        Except.ok (String.intercalate (" ") paras))
    ∧ (∀ a t paras, pyStrip t = "" →
        extract_text a (Except.ok t) (Except.ok paras) =
          Except.ok (String.intercalate (" ") paras))
    ∧ (∀ a, extract_text a (Except.error ()) (Except.ok ([])) = Except.ok (""))
    ∧ (∀ a p, extract_text a p (Except.error ()) = Except.error ()
        ∨ ∃ t, p = Except.ok t ∧ pyStrip t ≠ ""
            ∧ extract_text a p (Except.error ()) = Except.ok t) := by
  refine ⟨?_, ?_, ?_, ?_, ?_⟩
  · intro a p paras
    cases a with
    | false => exact ⟨String.intercalate (" ") paras, rfl⟩
    | true =>
      cases p with
      | error e => exact ⟨String.intercalate (" ") paras, rfl⟩
      | ok t =>
        cases hst : (pyStrip t != "") with
        | true => exact ⟨t, by simp [extract_text, hst]⟩
        | false =>
          exact ⟨String.intercalate (" ") paras, by simp [extract_text, hst, secondaryJoin]⟩
  · intro a paras
    cases a <;> rfl
  · intro a t paras h
    cases a with
    | false => rfl
    | true =>
      have hst : (pyStrip t != "") = false := by rw [h]; rfl
      simp [extract_text, hst, secondaryJoin]
  · intro a
    cases a <;> rfl
  · intro a p
    cases a with
    | false => exact Or.inl rfl
    | true =>
      cases p with
      | error e => exact Or.inl rfl
      | ok t =>
        cases hst : (pyStrip t != "") with
        | true =>
          exact Or.inr ⟨t, rfl, bne_iff_ne.mp hst, by simp [extract_text, hst]⟩
        | false => exact Or.inl (by simp [extract_text, hst, secondaryJoin])

/-- C3 witness: blank primary text degrades to the paragraph join. -/
theorem extract_text_degrade_witness :
    extract_text true (Except.ok ("  ")) (Except.ok ([("x"), ("y")])) =
      Except.ok (String.intercalate (" ") ([("x"), ("y")])) :=
  extract_text_degrade_spec.2.2.1 true ("  ") ([("x"), ("y")]) (by rfl)

/-- C4: call_ai is fail-soft: with both tiers raising it returns the
empty string; the first tier that yields non-empty stripped text has
that text returned: tier one text is returned whatever the other
tier would do, and when tier one yields nothing, tier two text is
returned; when neither tier yields text the result is the empty
string.  All exceptions of the two network calls are inputs of the
embedding, so the function itself never raises. -/
theorem call_ai_fail_soft_spec :
    (∀ hA k, call_ai hA (Except.error ()) k (Except.error ()) = "")
    ∧ (∀ hA hfR k oaR t, tier1_text hA hfR = some t →
        call_ai hA hfR k oaR = t ∧ t ≠ "")
    ∧ (∀ hA hfR k oaR t, tier1_text hA hfR = none → tier2_text k oaR = some t →
        call_ai hA hfR k oaR = t ∧ t ≠ "")
    ∧ (∀ hA hfR k oaR, tier1_text hA hfR = none → tier2_text k oaR = none →
        call_ai hA hfR k oaR = "") := by
  refine ⟨?_, ?_, ?_, ?_⟩
  · intro hA k
    cases hA <;> cases k <;> rfl
  · intro hA hfR k oaR t h
    refine ⟨by simp [call_ai, h], ?_⟩
    simp only [tier1_text] at h
    split at h
    · split at h
      · exact Option.noConfusion h
      · split at h
        · rename_i s
          split at h
          · exact Option.noConfusion h
          · rename_i hcond
            injection h with h2
            subst h2
            simpa using hcond
        · exact Option.noConfusion h
      · exact Option.noConfusion h
    · exact Option.noConfusion h
  · intro hA hfR k oaR t h1 h2
    refine ⟨by simp [call_ai, h1, h2], ?_⟩
    simp only [tier2_text] at h2
    split at h2
    · split at h2
      · exact Option.noConfusion h2
      · split at h2
        · exact Option.noConfusion h2
        · rename_i hcond
          injection h2 with h3
          subst h3
          simpa using hcond
    · exact Option.noConfusion h2
  · intro hA hfR k oaR h1 h2
    simp [call_ai, h1, h2]

/-- C4 witness: a tier-one payload with non-empty generated text is
returned stripped even though tier two raises; when tier one raises
and tier two succeeds, the tier-two text is returned stripped; two
raised tiers give the empty string. -/
theorem call_ai_fail_soft_witness :
    call_ai true (Except.ok (Json.obj [(("generated_text"), Json.str (" hello "))]))
        true (Except.error ()) = "hello"
    ∧ call_ai true (Except.error ()) true (Except.ok (" world ")) = "world"
    ∧ call_ai true (Except.error ()) true (Except.error ()) = "" := by
  refine ⟨?_, ?_, call_ai_fail_soft_spec.1 true true⟩
  · exact (call_ai_fail_soft_spec.2.1 true
      (Except.ok (Json.obj [(("generated_text"), Json.str (" hello "))]))
      true (Except.error ()) ("hello") (by rfl)).1
  · exact (call_ai_fail_soft_spec.2.2.1 true (Except.error ())
      true (Except.ok (" world ")) ("world") (by rfl) (by rfl)).1

/-- C5: with an empty AI advice response the advice text is never
empty: it is the exact no-metrics template when every TAM and CAGR
cell is empty, and otherwise the metric template built from the
comma-joined non-empty values. -/
theorem synthesize_advice_fallback_spec :
    (∀ tamCol cagrCol, synthesize_advice ("") tamCol cagrCol ≠ "")
    ∧ (∀ tamCol cagrCol, (∀ t ∈ tamCol, t = "") → (∀ c ∈ cagrCol, c = "") →
        synthesize_advice ("") tamCol cagrCol = adviceNoMetrics)
    ∧ (∀ tamCol cagrCol,
        tamCol.filter (fun t => t != "") ≠ [] ∨ cagrCol.filter (fun c => c != "") ≠ [] →
        synthesize_advice ("") tamCol cagrCol =
          adviceWithMetrics (tamCol.filter (fun t => t != ""))
            (cagrCol.filter (fun c => c != ""))) := by
  refine ⟨?_, ?_, ?_⟩
  · intro tc cc
    simp only [synthesize_advice, bne_self_eq_false, Bool.false_eq_true, if_false]
    split
    · exact adviceWithMetrics_ne_empty _ _
    · decide
  · intro tc cc h1 h2
    have ht : tc.filter (fun t => t != "") = [] := by
      rw [List.filter_eq_nil_iff]
      intro a ha
      simp [h1 a ha]
    have hc : cc.filter (fun c => c != "") = [] := by
      rw [List.filter_eq_nil_iff]
      intro a ha
      simp [h2 a ha]
    simp [synthesize_advice, ht, hc]
  · intro tc cc h
    have hcond : (!(tc.filter (fun t => t != "")).isEmpty
        || !(cc.filter (fun c => c != "")).isEmpty) = true := by
      cases h with
      | inl h1 => simp [List.isEmpty_iff, h1]
      | inr h1 => simp [List.isEmpty_iff, h1]
    simp [synthesize_advice, hcond]

/-- C5 witness: all-empty columns give the no-metrics template; a
non-empty TAM value gives the metric template. -/
theorem synthesize_advice_fallback_witness :
    synthesize_advice ("") ([("")]) ([]) = adviceNoMetrics
    ∧ synthesize_advice ("") ([("$5 billion")]) ([]) =
        adviceWithMetrics (([("$5 billion")]).filter (fun t => t != ""))
          (([] : List String).filter (fun c => c != "")) := by
  refine ⟨synthesize_advice_fallback_spec.2.1 ([("")]) ([]) (by decide) (by decide),
    synthesize_advice_fallback_spec.2.2 ([("$5 billion")]) ([]) (Or.inl (by decide))⟩

/-- C8: the source retriever returns min(max results, feed length)
headlines, in feed order, and an item with a missing title or link
element contributes the empty string in that field. -/
theorem fetch_news_spec (items : List FeedItem) (m : Nat) :
    (fetch_news items m).length = min m items.length
    ∧ (∀ i it, items[i]? = some it → i < m →
        (fetch_news items m)[i]? =
          some (Headline.mk (it.title.getD ("")) (it.link.getD ("")))) := by
  constructor
  · simp [fetch_news]
  · intro i it hit him
    simp [fetch_news, List.getElem?_map, List.getElem?_take_of_lt him, hit]

/-- C8 witness: a feed of eight items with max results five returns
exactly five headlines, and the first item, whose link element is
missing, maps to an empty link, never null. -/
theorem fetch_news_spec_witness :
    (fetch_news items8 5).length = 5
    ∧ (fetch_news items8 5)[0]? = some (Headline.mk ("a0") ("")) := by
  refine ⟨((fetch_news_spec items8 5).1).trans (by decide), ?_⟩
  exact (fetch_news_spec items8 5).2 0 (FeedItem.mk (some ("a0")) none)
    (by decide) (by decide)

/-- C9 counterexample: the feed fetch is not the only fatal error of
the pipeline: the snippet step raises when the primary extraction
fails and the secondary HTTP fetch raises, and that exception is not
swallowed anywhere between extract_text and the per-row apply. -/
theorem pipeline_fatal_counterexample :
    snippet_step true (Except.error ()) (Except.error ()) = Except.error () := by rfl

/-- C9 (amended): fetch_news raises exactly when the HTTP status of
the feed fetch is a failure status (400 to 599), and otherwise
returns the parsed headlines; it is the only fatal error of the feed
retrieval step, but not of the whole pipeline, since the content
extractor can also raise. -/
theorem fetch_news_network_error (status : Nat) (items : List FeedItem) (m : Nat) :
    (fetch_news_full status items m = Except.error () ↔ 400 ≤ status ∧ status < 600)
    ∧ (¬(400 ≤ status ∧ status < 600) →
        fetch_news_full status items m = Except.ok (fetch_news items m)) := by
  unfold fetch_news_full
  by_cases h : 400 ≤ status ∧ status < 600
  · rw [if_pos h]
    exact ⟨⟨fun _ => h, fun _ => rfl⟩, fun hn => absurd h hn⟩
  · rw [if_neg h]
    exact ⟨⟨fun he => Except.noConfusion he, fun hh => absurd hh h⟩, fun _ => rfl⟩

/-- C9 witness: status 404 raises, status 200 returns the parsed
headlines. -/
theorem fetch_news_network_error_witness :
    fetch_news_full 404 ([]) 5 = Except.error ()
    ∧ fetch_news_full 200 ([]) 5 = Except.ok (fetch_news ([]) 5) :=
  ⟨(fetch_news_network_error 404 ([]) 5).1.mpr (by decide),
   (fetch_news_network_error 200 ([]) 5).2 (by decide)⟩

end MarketSizer
